import Mathlib

/-!
Verification development for the Geogrid-Viewer binary overlay decoder
(src/ggv_bin.rs) of ggvtogpx-rs, together with the shared Geodata model
(src/geodata.rs).

Conventions of the shallow embedding:
* A byte buffer is a `List Nat` whose elements are byte values (< 256).
* IEEE-754 doubles are carried as their 64-bit little-endian bit pattern
  (a `Nat`); the decoder never computes with the float values, it only
  moves bytes into `f64` fields, so the bit-pattern view is exact.
  `f64NanBits` is the bit pattern of Rust `f64::NAN`, the sentinel that
  `Waypoint::new` stores for "elevation unset".
* nom parsers become functions `List Nat → Except NomErr (List Nat × α)`:
  the `Ok((rest, value))` of `IResult`.  `nom::Err::Error` and
  `nom::Err::Failure` are the two error constructors; the `ErrorKind`
  passed to `nom::error::make_error` is recorded in the constructor even
  though `CustomError::from_error_kind` drops it, so that the development
  can name which error condition fired; the `message` component is
  exactly the `CustomError` message the Rust code builds.
* Rust arithmetic that can overflow in debug builds (the `u16`
  subtraction `header_len - 4`) is modelled by the `panik` outcome.
-/

/-- nom `ErrorKind` as used by this decoder: `Eof` from `take`/number
parsers on short input, `TooLarge` for the 64 KiB length ceiling, `Tag`
for literal mismatch and unsupported entry types. -/
inductive ErrKind where
  | eof
  | tooLarge
  | tag
deriving DecidableEq

/-- A nom error value as produced by the Rust decoder: `error` is
`nom::Err::Error`, `failure` is `nom::Err::Failure`, each carrying the
`CustomError` message; `panik` models a Rust panic (debug-build integer
overflow). -/
inductive NomErr where
  | error (kind : ErrKind) (msg : String)
  | failure (kind : ErrKind) (msg : String)
  | panik
deriving DecidableEq

deriving instance DecidableEq for Except

/-- Result type of an embedded nom parser: remaining input and value. -/
abbrev PResult (α : Type) : Type := Except NomErr (List Nat × α)

/-- The `CustomError::add_context`: first context replaces the empty
message, later ones are appended after a comma. -/
def addCtx (msg ctx : String) : String :=
  if msg = "" then ctx else msg ++ ", " ++ ctx

/-- nom `context`: attaches a context label to both `Err::Error` and
`Err::Failure` results of the wrapped parser. -/
def withContext {α : Type} (ctx : String) (r : PResult α) : PResult α :=
  match r with
  | .error (.error k m) => .error (.error k (addCtx m ctx))
  | .error (.failure k m) => .error (.failure k (addCtx m ctx))
  | r => r

/-- The space character. -/
def SP : Char := Char.ofNat 32

/-- Carriage return. -/
def CR : Char := Char.ofNat 13

/-- Line feed. -/
def LF : Char := Char.ofNat 10

/-- Rust `char::is_control`: the Unicode `Cc` category,
U+0000..U+001F and U+007F..U+009F. -/
def rustIsControl (c : Char) : Bool :=
  c.toNat < 32 || (127 ≤ c.toNat && c.toNat ≤ 159)

/-- The `encoding_rs::mem::decode_latin1`: byte value `b` becomes the
Unicode code point `b`. -/
def decodeLatin1 (l : List Nat) : List Char :=
  l.map Char.ofNat

/-- nom take-till-NUL: the prefix before the first zero byte. -/
def takeTillNul (l : List Nat) : List Nat :=
  l.takeWhile (fun b => b ≠ 0)

/-- Rust `str::replace("\r\n", " ")`: left-to-right, non-overlapping. -/
def replaceCRLF : List Char → List Char
  | [] => []
  | [c] => [c]
  | c :: d :: rest =>
    if c = CR ∧ d = LF then SP :: replaceCRLF rest
    else c :: replaceCRLF (d :: rest)

/-- Rust str split on the space character: the list of chunks between space
characters; always non-empty, empty chunks mark adjacent separators. -/
def splitSpace : List Char → List (List Char)
  | [] => [[]]
  | c :: rest =>
    if c = SP then [] :: splitSpace rest
    else
      match splitSpace rest with
      | [] => [[c]]
      | g :: gs => (c :: g) :: gs

/-- Rust `Vec<&str>::join(" ")`. -/
def joinSpace : List (List Char) → List Char
  | [] => []
  | [g] => g
  | g :: gs => g ++ SP :: joinSpace gs

/-- The whitespace/control normalization both text readers apply after
latin1 decoding: replace CR+LF by one space, drop empty chunks between
spaces (collapsing runs and trimming), re-join with single spaces, then
strip control characters. -/
def ggv_bin_normalize (cs : List Char) : List Char :=
  (joinSpace (((splitSpace (replaceCRLF cs)).filter (fun g => !g.isEmpty)))).filter
    (fun c => !rustIsControl c)

/-- Bit pattern of Rust `f64::NAN`, the "elevation unset" sentinel that
`Waypoint::new` stores. -/
def f64NanBits : Nat := 0x7FF8000000000000

/-- The `geodata::Waypoint`; latitude/longitude/elevation hold the 64-bit
IEEE-754 pattern of the Rust `f64` fields. -/
structure Waypoint where
  latitude : Nat
  longitude : Nat
  elevation : Nat
  name : String
deriving DecidableEq

/-- The `Waypoint::new()`: all coordinates start as NaN, name empty. -/
def Waypoint.new : Waypoint :=
  { latitude := f64NanBits, longitude := f64NanBits, elevation := f64NanBits, name := "" }

/-- The `Waypoint::with_lat`. -/
def Waypoint.with_lat (w : Waypoint) (lat : Nat) : Waypoint :=
  { w with latitude := lat }

/-- The `Waypoint::with_lon`. -/
def Waypoint.with_lon (w : Waypoint) (lon : Nat) : Waypoint :=
  { w with longitude := lon }

/-- The `Waypoint::with_name`. -/
def Waypoint.with_name (w : Waypoint) (name : String) : Waypoint :=
  { w with name := name }

/-- The `geodata::WaypointList`. -/
structure WaypointList where
  waypoints : List Waypoint
  name : String
deriving DecidableEq

/-- The `WaypointList::new()` / `default()`. -/
def WaypointList.new : WaypointList :=
  { waypoints := [], name := "" }

/-- The `WaypointList::add_waypoint`: push at the end. -/
def WaypointList.add_waypoint (l : WaypointList) (w : Waypoint) : WaypointList :=
  { l with waypoints := l.waypoints ++ [w] }

/-- The `WaypointList::set_name`. -/
def WaypointList.set_name (l : WaypointList) (name : String) : WaypointList :=
  { l with name := name }

/-- The `geodata::Geodata`.  The `data` field holds the named binary
resources.  Modelled from the spec: `Geodata` in src/geodata.rs does not
show the resource storage nor `add_data`, which src/ggv_bin.rs calls;
the spec describes "zero or more named binary resources" attached in
encounter order. -/
structure Geodata where
  debug : Nat
  waypoints : List WaypointList
  routes : List WaypointList
  tracks : List WaypointList
  data : List (String × List Nat)
deriving DecidableEq

/-- The `Geodata::new()`: one implicit loose-waypoint list, no routes,
tracks or resources. -/
def Geodata.new : Geodata :=
  { debug := 0, waypoints := [WaypointList.new], routes := [], tracks := [], data := [] }

/-- The `Geodata::with_debug`. -/
def Geodata.with_debug (g : Geodata) (d : Nat) : Geodata :=
  { g with debug := d }

/-- The `Geodata::add_waypoint`: append to the first (implicit) list,
creating it if the vector is empty. -/
def Geodata.add_waypoint (g : Geodata) (w : Waypoint) : Geodata :=
  let ls := if g.waypoints.length = 0 then g.waypoints ++ [WaypointList.new] else g.waypoints
  match ls with
  | [] => { g with waypoints := ls }
  | l :: rest => { g with waypoints := l.add_waypoint w :: rest }

/-- The `Geodata::add_route`. -/
def Geodata.add_route (g : Geodata) (r : WaypointList) : Geodata :=
  { g with routes := g.routes ++ [r] }

/-- The `Geodata::add_track`. -/
def Geodata.add_track (g : Geodata) (t : WaypointList) : Geodata :=
  { g with tracks := g.tracks ++ [t] }

/-- Modelled from the spec: `Geodata::add_data` (missing from
src/geodata.rs) attaches a named binary resource to the result. -/
def Geodata.add_data (g : Geodata) (name : String) (bytes : List Nat) : Geodata :=
  { g with data := g.data ++ [(name, bytes)] }

/-- nom `take(len)` without a context label (used bare in the version-2
header): errors with kind `Eof` and an empty message when fewer than
`len` bytes remain. -/
def nom_take (len : Nat) (i : List Nat) : PResult (List Nat) :=
  if len ≤ i.length then .ok (i.drop len, i.take len)
  else .error (.error .eof (""))

/-- nom `tag(t)`: matches the literal byte sequence `t` at the front;
on mismatch (or short input) errors with kind `Tag`. -/
def nom_tag (t : List Nat) (i : List Nat) : PResult (List Nat) :=
  if i.take t.length = t then .ok (i.drop t.length, t)
  else .error (.error .tag (""))

/-- The `ggv_bin_read_bytes`: `context(descr, take(len))`. -/
def ggv_bin_read_bytes (i : List Nat) (len : Nat) (descr : String) : PResult (List Nat) :=
  withContext descr (nom_take len i)

/-- The `ggv_bin_read16`: `context(descr, le_u16)`; the debug print is
diagnostic only and not modelled. -/
def ggv_bin_read16 (i : List Nat) (descr : String) : PResult Nat :=
  match i with
  | b0 :: b1 :: rest => .ok (rest, b0 + 256 * b1)
  | _ => .error (.error .eof descr)

/-- The `ggv_bin_read32`: `context(descr, le_u32)`. -/
def ggv_bin_read32 (i : List Nat) (descr : String) : PResult Nat :=
  match i with
  | b0 :: b1 :: b2 :: b3 :: rest =>
    .ok (rest, b0 + 256 * b1 + 65536 * b2 + 16777216 * b3)
  | _ => .error (.error .eof descr)

/-- The `ggv_bin_read_double`: `context(descr, le_f64)`; the value is the
64-bit little-endian bit pattern. -/
def ggv_bin_read_double (i : List Nat) (descr : String) : PResult Nat :=
  match i with
  | b0 :: b1 :: b2 :: b3 :: b4 :: b5 :: b6 :: b7 :: rest =>
    .ok (rest, b0 + 256 * b1 + 65536 * b2 + 16777216 * b3 + 4294967296 * b4 +
      1099511627776 * b5 + 281474976710656 * b6 + 72057594037927936 * b7)
  | _ => .error (.error .eof descr)

/-- The `ggv_bin_read_text16`: 16-bit length, then that many bytes,
truncated at the first NUL, latin1-decoded and normalized. -/
def ggv_bin_read_text16 (i : List Nat) (descr : String) : Except NomErr (List Nat × String) :=
  do
    let (i, len) ← ggv_bin_read16 i descr
    let (i, buf) ← ggv_bin_read_bytes i len descr
    .ok (i, String.mk (ggv_bin_normalize (decodeLatin1 (takeTillNul buf))))

/-- The `ggv_bin_read_text32`: 32-bit length with the 64 KiB ceiling
(`len > u16::MAX` fails with `Err::Failure(TooLarge)` before any
payload byte is read), then as the 16-bit variant. -/
def ggv_bin_read_text32 (i : List Nat) (descr : String) : Except NomErr (List Nat × String) :=
  do
    let (i, len) ← ggv_bin_read32 i descr
    if len > 65535 then
      .error (.failure .tooLarge (""))
    else do
      let (i, buf) ← ggv_bin_read_bytes i len descr
      .ok (i, String.mk (ggv_bin_normalize (decodeLatin1 (takeTillNul buf))))

/-- The bytes of the literal `"DOMGVCRD Ovlfile V"`. -/
def magicPrefixBytes : List Nat :=
  [68, 79, 77, 71, 86, 67, 82, 68, 32, 79, 118, 108, 102, 105, 108, 101, 32, 86]

/-- The bytes of the literal `".0:\0"` that closes the magic header. -/
def magicSuffixBytes : List Nat :=
  [46, 48, 58, 0]

/-- The `alt((tag("2"), tag("3"), tag("4")))` on the version digit. -/
def magicVersionAlt (i : List Nat) : PResult (List Nat) :=
  match nom_tag [50] i with
  | .ok r => .ok r
  | .error _ =>
    match nom_tag [51] i with
    | .ok r => .ok r
    | .error _ => nom_tag [52] i

/-- The `ggv_bin_parse_magic`: peek 22 bytes for the raw header text, then
consume the 23-byte literal `"DOMGVCRD Ovlfile V"` + digit + `".0:\0"`;
returns the version digit value and the decoded 22-byte header. -/
def ggv_bin_parse_magic (buf : List Nat) : PResult (Nat × String) :=
  match withContext ("magic") (nom_take 22 buf) with
  | .error e => .error e
  | .ok (_, magic) =>
    match withContext ("magic")
        ((do
          let (b, _) ← nom_tag magicPrefixBytes buf
          let (b, m_version) ← magicVersionAlt b
          let (b, _) ← nom_tag magicSuffixBytes b
          .ok (b, m_version)) : Except NomErr (List Nat × List Nat)) with
    | .error e => .error e
    | .ok (b, m_version) =>
      .ok (b, (m_version.getD 0 0 - 48, String.mk (decodeLatin1 magic)))

/-- Little-endian bytes of a `u16` (`to_le_bytes`). -/
def le16Bytes (n : Nat) : List Nat :=
  [n % 256, n / 256 % 256]

/-- Little-endian bytes of a `u32` (`to_le_bytes`). -/
def le32Bytes (n : Nat) : List Nat :=
  [n % 256, n / 256 % 256, n / 65536 % 256, n / 16777216 % 256]

/-- The `ggv_bin_write_bitmap`: if the 4-byte DIB header size of the blob is not
40 the blob is left alone; otherwise the remaining info-header fields
are read (only bits-per-pixel is used), a 14-byte BMP file header is
computed and prepended, and the result is attached as the named binary
resource "bmp".  The `u32` total-size field wraps modulo 2^32 as the
Rust `as u32` cast does.  The original input slice is returned. -/
def ggv_bin_write_bitmap (bitmap : List Nat) (geodata : Geodata) :
    Except NomErr (List Nat × Geodata) :=
  do
    let (i, bmp_dib_size) ← ggv_bin_read32 bitmap ("bmp dib size")
    if bmp_dib_size ≠ 40 then
      .ok (bitmap, geodata)
    else do
      let (i, _) ← ggv_bin_read32 i ("bmp width")
      let (i, _) ← ggv_bin_read32 i ("bmp height")
      let (i, _) ← ggv_bin_read16 i ("bmp color plane")
      let (i, bmp_pixel_bits) ← ggv_bin_read16 i ("bmp pixel bits")
      let (i, _) ← ggv_bin_read32 i ("bmp compression")
      let (i, _) ← ggv_bin_read32 i ("bmp image size")
      let (i, _) ← ggv_bin_read32 i ("bmp x res")
      let (i, _) ← ggv_bin_read32 i ("bmp y res")
      let (i, _) ← ggv_bin_read32 i ("bmp num col")
      let (_, _) ← ggv_bin_read32 i ("bmp imp col")
      let bmp_size : Nat := (bitmap.length + 14) % 4294967296
      let bmp_offset : Nat :=
        if bmp_pixel_bits ≥ 16 then 14 + bmp_dib_size
        else 14 + bmp_dib_size + 2 ^ bmp_pixel_bits * 4
      let data : List Nat :=
        [66, 77] ++ le32Bytes bmp_size ++ le16Bytes 0 ++ le16Bytes 0 ++
          le32Bytes bmp_offset ++ bitmap
      .ok (bitmap, geodata.add_data ("bmp") data)

/-- The `for _ in 1..=line_points` body of the version-2 line/area
entry: each step reads longitude then latitude doubles and appends a
nameless waypoint. -/
def ggv_bin_v2_line_loop (n : Nat) (buf : List Nat) (wl : WaypointList) :
    Except NomErr (List Nat × WaypointList) :=
  match n with
  | 0 => .ok (buf, wl)
  | m + 1 => do
    let (buf, lon) ← ggv_bin_read_double buf ("text lon")
    let (buf, lat) ← ggv_bin_read_double buf ("text lat")
    ggv_bin_v2_line_loop m buf (wl.add_waypoint ((Waypoint.new.with_lat lat).with_lon lon))

/-- The `ggv_bin_read_v2_entries`: dispatch on the entry type, in the
source order of the match; unknown types fail with
`Err::Failure(ErrorKind::Tag)`. -/
def ggv_bin_read_v2_entries (buf : List Nat) (entry_type : Nat) (track_name : String)
    (geodata : Geodata) : Except NomErr (List Nat × Geodata) :=
  if entry_type = 2 then do
    let (buf, _) ← ggv_bin_read16 buf ("text color")
    let (buf, _) ← ggv_bin_read16 buf ("text size")
    let (buf, _) ← ggv_bin_read16 buf ("text trans")
    let (buf, _) ← ggv_bin_read16 buf ("text font")
    let (buf, _) ← ggv_bin_read16 buf ("text angle")
    let (buf, lon) ← ggv_bin_read_double buf ("text lon")
    let (buf, lat) ← ggv_bin_read_double buf ("text lat")
    let (buf, label) ← ggv_bin_read_text16 buf ("text label")
    .ok (buf, geodata.add_waypoint (((Waypoint.new.with_lat lat).with_lon lon).with_name label))
  else if entry_type = 3 ∨ entry_type = 4 then do
    let (buf, _) ← ggv_bin_read16 buf ("line color")
    let (buf, _) ← ggv_bin_read16 buf ("line width")
    let (buf, _) ← ggv_bin_read16 buf ("line type")
    let (buf, line_points) ← ggv_bin_read16 buf ("line points")
    let wl := if track_name ≠ "" then WaypointList.new.set_name track_name else WaypointList.new
    let (buf, wl) ← ggv_bin_v2_line_loop line_points buf wl
    .ok (buf, geodata.add_track wl)
  else if entry_type = 5 ∨ entry_type = 6 ∨ entry_type = 7 then do
    let (buf, _) ← ggv_bin_read16 buf ("geom color")
    let (buf, _) ← ggv_bin_read16 buf ("geom prop1")
    let (buf, _) ← ggv_bin_read16 buf ("geom prop2")
    let (buf, _) ← ggv_bin_read16 buf ("geom angle")
    let (buf, _) ← ggv_bin_read16 buf ("geom stroke")
    let (buf, _) ← ggv_bin_read16 buf ("geom area")
    let (buf, _) ← ggv_bin_read_double buf ("geom lon")
    let (buf, _) ← ggv_bin_read_double buf ("geom lat")
    .ok (buf, geodata)
  else if entry_type = 9 then do
    let (buf, _) ← ggv_bin_read16 buf ("bmp color")
    let (buf, _) ← ggv_bin_read16 buf ("bmp prop1")
    let (buf, _) ← ggv_bin_read16 buf ("bmp prop2")
    let (buf, _) ← ggv_bin_read16 buf ("bmp prop3")
    let (buf, _) ← ggv_bin_read_double buf ("bmp lon")
    let (buf, _) ← ggv_bin_read_double buf ("bmp lat")
    let (buf, bmp_len) ← ggv_bin_read32 buf ("bmp len")
    if bmp_len > 65535 then
      .error (.failure .tooLarge (""))
    else do
      let (buf, bmp_data) ← ggv_bin_read_bytes buf bmp_len ("bmp data")
      let geodata :=
        match ggv_bin_write_bitmap bmp_data geodata with
        | .ok (_, g) => g
        | .error _ => geodata
      .ok (buf, geodata)
  else
    .error (.failure .tag (""))

/-- The `ggv_bin_read_header_v2`: 16-bit map-name length; 0 means no
name; otherwise the source first takes the 4-byte sub-header (an
uncontexted take, so a short buffer yields an Eof error with empty
message here), and only then evaluates `take(header_len - 4)`.  At
that point, for `0 < header_len < 4`, the Rust `u16` subtraction
`header_len - 4` underflows: with overflow checks (debug builds) this
panics, modelled by `panik` (a release build wraps to
`header_len + 65532` and then fails the oversized take). -/
def ggv_bin_read_header_v2 (buf : List Nat) : Except NomErr (List Nat × String) :=
  do
    let (buf, header_len) ← ggv_bin_read16 buf ("map name len")
    if header_len > 0 then do
      let (buf, _) ← nom_take 4 buf
      if header_len < 4 then
        .error .panik
      else do
        let (buf, name) ← nom_take (header_len - 4) buf
        .ok (buf, String.mk (decodeLatin1 (takeTillNul name)))
    else
      .ok (buf, "")

/-- The `while buf.len() > 0` loop of `ggv_bin_read_v2`, with explicit
fuel; each iteration consumes at least the 8 entry-header bytes, so
fuel `buf.length + 1` can never run out before the loop exits. -/
def ggv_bin_read_v2_loop (fuel : Nat) (buf : List Nat) (geodata : Geodata) :
    Except NomErr (List Nat × Geodata) :=
  match fuel with
  | 0 => .ok (buf, geodata)
  | fuel + 1 =>
    if buf.length = 0 then .ok (buf, geodata)
    else do
      let (buf, entry_type) ← ggv_bin_read16 buf ("entry type")
      let (buf, _) ← ggv_bin_read16 buf ("entry group")
      let (buf, _) ← ggv_bin_read16 buf ("entry zoom")
      let (buf, entry_subtype) ← ggv_bin_read16 buf ("entry subtype")
      let (buf, track_name) ←
        if entry_subtype ≠ 1 then ggv_bin_read_text32 buf ("track name")
        else (.ok (buf, "") : Except NomErr (List Nat × String))
      let (buf, geodata) ← ggv_bin_read_v2_entries buf entry_type track_name geodata
      ggv_bin_read_v2_loop fuel buf geodata

/-- The `ggv_bin_read_v2`: magic, version-2 header, then the entry loop. -/
def ggv_bin_read_v2 (buf : List Nat) (geodata : Geodata) :
    Except NomErr (List Nat × Geodata) :=
  do
    let (buf, _) ← ggv_bin_parse_magic buf
    let (buf, _) ← ggv_bin_read_header_v2 buf
    ggv_bin_read_v2_loop (buf.length + 1) buf geodata

/-- The `ggv_bin_read_header_v34`: block preamble, label/record counts,
discarded text and fixed fields, then the length-prefixed map-name
block whose internal 4-byte sub-header must be present. -/
def ggv_bin_read_header_v34 (buf : List Nat) : Except NomErr (List Nat × (Nat × Nat)) :=
  do
    let (buf, _) ← ggv_bin_read_bytes buf 8 ("unknown")
    let (buf, label_count) ← ggv_bin_read32 buf ("num labels")
    let (buf, record_count) ← ggv_bin_read32 buf ("num records")
    let (buf, _) ← ggv_bin_read_text16 buf ("text label")
    let (buf, _) ← ggv_bin_read16 buf ("unknown")
    let (buf, _) ← ggv_bin_read16 buf ("unknown")
    let (buf, _) ← ggv_bin_read16 buf ("unknown")
    let (buf, header_len) ← ggv_bin_read16 buf ("header len")
    let (buf, _) ← ggv_bin_read16 buf ("unknown")
    let (buf, _) ← ggv_bin_read16 buf ("unknown")
    if header_len > 0 then do
      let (buf, map_name) ← ggv_bin_read_bytes buf header_len ("map name")
      let (_, _) ← nom_take 4 map_name
      .ok (buf, (label_count, record_count))
    else
      .ok (buf, (label_count, record_count))

/-- The `ggv_bin_read_label_v34`: a label record, fully parsed for cursor
advancement, nothing retained. -/
def ggv_bin_read_label_v34 (buf : List Nat) (pos : Nat) : Except NomErr (List Nat × Unit) :=
  do
    let (buf, _) ← ggv_bin_read_bytes buf 8 ("label header")
    let (buf, _) ← ggv_bin_read_bytes buf 20 ("label number")
    let (buf, _) ← ggv_bin_read_text16 buf ("label text")
    let (buf, _) ← ggv_bin_read16 buf ("label flag1")
    let (buf, _) ← ggv_bin_read16 buf ("label flag2")
    .ok (buf, ())

/-- The `ggv_bin_read_common_v34`: the nine discarded 16-bit fields plus
zoom, the candidate-name text field, and up to two optional 32-bit
"object" cross-reference texts guarded by type markers. -/
def ggv_bin_read_common_v34 (buf : List Nat) : Except NomErr (List Nat × String) :=
  do
    let (buf, _) ← ggv_bin_read16 buf ("entry group")
    let (buf, _) ← ggv_bin_read16 buf ("entry prop2")
    let (buf, _) ← ggv_bin_read16 buf ("entry prop3")
    let (buf, _) ← ggv_bin_read16 buf ("entry prop4")
    let (buf, _) ← ggv_bin_read16 buf ("entry prop5")
    let (buf, _) ← ggv_bin_read16 buf ("entry prop6")
    let (buf, _) ← ggv_bin_read16 buf ("entry prop7")
    let (buf, _) ← ggv_bin_read16 buf ("entry prop8")
    let (buf, _) ← ggv_bin_read16 buf ("entry zoom")
    let (buf, _) ← ggv_bin_read16 buf ("entry prop10")
    let (buf, entry_text) ← ggv_bin_read_text16 buf ("entry txt")
    let (buf, entry_type1) ← ggv_bin_read16 buf ("entry type1")
    let (buf, _) ←
      if entry_type1 ≠ 1 then ggv_bin_read_text32 buf ("entry object")
      else (.ok (buf, "") : Except NomErr (List Nat × String))
    let (buf, entry_type2) ← ggv_bin_read16 buf ("entry type2")
    let (buf, _) ←
      if entry_type2 ≠ 1 then ggv_bin_read_text32 buf ("entry object")
      else (.ok (buf, "") : Except NomErr (List Nat × String))
    .ok (buf, entry_text)

/-- The `for _ in 0..line_points` body of the version-3/4 line record:
longitude, latitude, one discarded double, one appended waypoint per
step. -/
def ggv_bin_v34_line_loop (n : Nat) (buf : List Nat) (track : WaypointList) :
    Except NomErr (List Nat × WaypointList) :=
  match n with
  | 0 => .ok (buf, track)
  | m + 1 => do
    let (buf, lon) ← ggv_bin_read_double buf ("line lon")
    let (buf, lat) ← ggv_bin_read_double buf ("line lat")
    let (buf, _) ← ggv_bin_read_double buf ("line unk")
    ggv_bin_v34_line_loop m buf (track.add_waypoint ((Waypoint.new.with_lat lat).with_lon lon))

/-- The `ggv_bin_read_record_v34`: entry type, common prefix, then the
type-specific payload in the source order of the match; unknown types fail
with `Err::Failure(ErrorKind::Tag)`. -/
def ggv_bin_read_record_v34 (buf : List Nat) (pos : Nat) (geodata : Geodata) :
    Except NomErr (List Nat × Geodata) :=
  do
    let (buf, entry_type) ← ggv_bin_read16 buf ("entry type")
    let (buf, label) ← ggv_bin_read_common_v34 buf
    if entry_type = 2 then do
      let (buf, _) ← ggv_bin_read16 buf ("text prop1")
      let (buf, _) ← ggv_bin_read32 buf ("text prop2")
      let (buf, _) ← ggv_bin_read16 buf ("text prop3")
      let (buf, _) ← ggv_bin_read32 buf ("text prop4")
      let (buf, _) ← ggv_bin_read16 buf ("text ltype")
      let (buf, _) ← ggv_bin_read16 buf ("text angle")
      let (buf, _) ← ggv_bin_read16 buf ("text size")
      let (buf, _) ← ggv_bin_read16 buf ("text area")
      let (buf, lon) ← ggv_bin_read_double buf ("text lon")
      let (buf, lat) ← ggv_bin_read_double buf ("text lat")
      let (buf, _) ← ggv_bin_read_double buf ("text unk")
      let (buf, txt) ← ggv_bin_read_text16 buf ("text label")
      .ok (buf, geodata.add_waypoint (((Waypoint.new.with_lat lat).with_lon lon).with_name txt))
    else if entry_type = 3 ∨ entry_type = 4 ∨ entry_type = 23 then do
      let (buf, _) ← ggv_bin_read16 buf ("line prop1")
      let (buf, _) ← ggv_bin_read32 buf ("line prop2")
      let (buf, _) ← ggv_bin_read16 buf ("line prop3")
      let (buf, _) ← ggv_bin_read32 buf ("line color")
      let (buf, _) ← ggv_bin_read16 buf ("line size")
      let (buf, _) ← ggv_bin_read16 buf ("line stroke")
      let (buf, line_points) ← ggv_bin_read16 buf ("line points")
      let (buf, _) ←
        if entry_type = 4 then ggv_bin_read16 buf ("line pad")
        else (.ok (buf, 0) : Except NomErr (List Nat × Nat))
      let track := if label ≠ "" then WaypointList.new.set_name label else WaypointList.new
      let (buf, track) ← ggv_bin_v34_line_loop line_points buf track
      .ok (buf, geodata.add_track track)
    else if entry_type = 5 ∨ entry_type = 6 ∨ entry_type = 7 then do
      let (buf, _) ← ggv_bin_read16 buf ("circle prop1")
      let (buf, _) ← ggv_bin_read32 buf ("circle prop2")
      let (buf, _) ← ggv_bin_read16 buf ("circle prop3")
      let (buf, _) ← ggv_bin_read32 buf ("circle color")
      let (buf, _) ← ggv_bin_read32 buf ("circle prop5")
      let (buf, _) ← ggv_bin_read32 buf ("circle prop6")
      let (buf, _) ← ggv_bin_read16 buf ("circle ltype")
      let (buf, _) ← ggv_bin_read16 buf ("circle angle")
      let (buf, _) ← ggv_bin_read16 buf ("circle size")
      let (buf, _) ← ggv_bin_read16 buf ("circle area")
      let (buf, _) ← ggv_bin_read_double buf ("circle lon")
      let (buf, _) ← ggv_bin_read_double buf ("circle lat")
      let (buf, _) ← ggv_bin_read_double buf ("circle unk")
      .ok (buf, geodata)
    else if entry_type = 9 then do
      let (buf, _) ← ggv_bin_read16 buf ("bmp prop1")
      let (buf, _) ← ggv_bin_read32 buf ("bmp prop2")
      let (buf, _) ← ggv_bin_read16 buf ("bmp prop3")
      let (buf, _) ← ggv_bin_read32 buf ("bmp prop4")
      let (buf, _) ← ggv_bin_read32 buf ("bmp prop5")
      let (buf, _) ← ggv_bin_read32 buf ("bmp prop6")
      let (buf, _) ← ggv_bin_read_double buf ("bmp lon")
      let (buf, _) ← ggv_bin_read_double buf ("bmp lat")
      let (buf, _) ← ggv_bin_read_double buf ("bmp unk")
      let (buf, bmp_len) ← ggv_bin_read32 buf ("bmp len")
      if bmp_len > 65535 then
        .error (.failure .tooLarge (""))
      else do
        let (buf, _) ← ggv_bin_read16 buf ("bmp prop")
        let (buf, bmp_data) ← ggv_bin_read_bytes buf bmp_len ("bmp data")
        let geodata :=
          match ggv_bin_write_bitmap bmp_data geodata with
          | .ok (_, g) => g
          | .error _ => geodata
        .ok (buf, geodata)
    else
      .error (.failure .tag (""))

/-- The `for _ in 0..label_count` loop of `ggv_bin_read_v34` (the
`label_count > 0` guard in the source only skips a debug print). -/
def ggv_bin_v34_label_loop (n : Nat) (length : Nat) (buf : List Nat) :
    Except NomErr (List Nat × Unit) :=
  match n with
  | 0 => .ok (buf, ())
  | m + 1 => do
    let (buf, _) ← ggv_bin_read_label_v34 buf (length - buf.length)
    ggv_bin_v34_label_loop m length buf

/-- The `for _ in 0..record_count` loop of `ggv_bin_read_v34`. -/
def ggv_bin_v34_record_loop (n : Nat) (length : Nat) (buf : List Nat) (geodata : Geodata) :
    Except NomErr (List Nat × Geodata) :=
  match n with
  | 0 => .ok (buf, geodata)
  | m + 1 => do
    let (buf, geodata) ← ggv_bin_read_record_v34 buf (length - buf.length) geodata
    ggv_bin_v34_record_loop m length buf geodata

/-- The `while buf.len() > 0` block loop of `ggv_bin_read_v34`: header,
labels, records, then an unvalidated 23-byte magic skip when bytes
remain.  Fuel `buf.length + 1` can never run out first: every
iteration consumes at least the 8 preamble bytes. -/
def ggv_bin_read_v34_loop (fuel : Nat) (length : Nat) (buf : List Nat) (geodata : Geodata) :
    Except NomErr (List Nat × Geodata) :=
  match fuel with
  | 0 => .ok (buf, geodata)
  | fuel + 1 =>
    if buf.length = 0 then .ok (buf, geodata)
    else do
      let (buf, counts) ← ggv_bin_read_header_v34 buf
      let (buf, _) ← ggv_bin_v34_label_loop counts.1 length buf
      let (buf, geodata) ← ggv_bin_v34_record_loop counts.2 length buf geodata
      if buf.length > 0 then do
        let (buf, _) ← ggv_bin_read_bytes buf 23 ("magicbytes")
        ggv_bin_read_v34_loop fuel length buf geodata
      else
        ggv_bin_read_v34_loop fuel length buf geodata

/-- The `ggv_bin_read_v34`: magic, then the block loop. -/
def ggv_bin_read_v34 (buf : List Nat) (geodata : Geodata) :
    Except NomErr (List Nat × Geodata) :=
  do
    let length := buf.length
    let (buf, _) ← ggv_bin_parse_magic buf
    ggv_bin_read_v34_loop (buf.length + 1) length buf geodata

/-- Outcome of `GgvBinFormat::read`: success with the Geodata handed to
the caller, an error (the Rust code renders the version and the nom
error into one `anyhow` message string), the "undhandled version"
early return, or a panic unwinding out of `read`. -/
inductive ReadResult where
  | ok (g : Geodata)
  | err (ver : Nat) (e : NomErr)
  | unhandledVersion
  | panicked
deriving DecidableEq

/-- The `GgvBinFormat::probe`: true exactly when the magic parser accepts. -/
def GgvBinFormat.probe (buf : List Nat) : Bool :=
  match ggv_bin_parse_magic buf with
  | .ok _ => true
  | _ => false

/-- The `GgvBinFormat::read`: create the Geodata with the configured debug
level, detect the version (0 when magic fails), dispatch to the
version-specific reader, and surface its outcome. -/
def GgvBinFormat.read (debug : Nat) (buf : List Nat) : ReadResult :=
  let geodata := Geodata.new.with_debug debug
  let ver : Nat :=
    match ggv_bin_parse_magic buf with
    | .ok (_, v) => v.1
    | _ => 0
  if ver = 2 then
    match ggv_bin_read_v2 buf geodata with
    | .ok (_, g) => .ok g
    | .error .panik => .panicked
    | .error e => .err ver e
  else if ver = 3 ∨ ver = 4 then
    match ggv_bin_read_v34 buf geodata with
    | .ok (_, g) => .ok g
    | .error .panik => .panicked
    | .error e => .err ver e
  else
    .unhandledVersion

/-- The 23 magic bytes of a version-`d` overlay file (`d` is the ASCII
code of the version digit): `"DOMGVCRD Ovlfile V"`, digit, `".0:\0"`. -/
def magicBytesV (d : Nat) : List Nat :=
  magicPrefixBytes ++ d :: magicSuffixBytes

/-- The version-2 magic header bytes. -/
def magic23v2 : List Nat :=
  magicBytesV 50

/-- IEEE-754 bit pattern of the double 13.0. -/
def f64Bits13 : Nat := 0x402A000000000000

/-- IEEE-754 bit pattern of the double 52.0. -/
def f64Bits52 : Nat := 0x404A000000000000

/-- The C1 scenario input: version-2 magic, map-name length 0, one
type-2 entry (group 0, zoom 0, subtype 1 so no track-name field), five
zeroed fixed fields, longitude 13.0, latitude 52.0 as little-endian
doubles, then the 16-bit-length label "Berlin". -/
def c1Input : List Nat :=
  magic23v2 ++ [0, 0] ++ [2, 0, 0, 0, 0, 0, 1, 0] ++
  [0, 0, 0, 0, 0, 0, 0, 0, 0, 0] ++
  [0, 0, 0, 0, 0, 0, 42, 64] ++ [0, 0, 0, 0, 0, 0, 74, 64] ++
  [6, 0] ++ [66, 101, 114, 108, 105, 110]

/-- The C3 scenario payload: a version-2 line entry declaring
`line_points = 5` followed by bytes for only two point pairs. -/
def c3Input : List Nat :=
  [0, 0, 0, 0, 0, 0, 5, 0] ++ List.replicate 32 0

/-- The fixed fields of a version-2 type-9 entry before the blob
length: four 16-bit fields and two doubles, 24 bytes. -/
def c4V2Bmp9Prefix : List Nat :=
  List.replicate 24 0

/-- A version-3/4 type-9 record up to (and excluding) the blob length
field: entry type 9, the common prefix with empty text and both type
markers equal to 1, then the fixed bitmap fields. -/
def c4V34Bmp9Prefix : List Nat :=
  [9, 0] ++ List.replicate 20 0 ++ [0, 0, 1, 0, 1, 0] ++ List.replicate 44 0

/-- A version-2 stream whose single entry has type 0xFF (subtype 1, so
no track-name field). -/
def c6Input : List Nat :=
  magic23v2 ++ [0, 0] ++ [255, 0, 0, 0, 0, 0, 1, 0]

/-- A version-3/4 record with entry type 0xFF and a well-formed common
prefix (empty text field, both type markers 1). -/
def c6RecordBuf : List Nat :=
  [255, 0] ++ List.replicate 20 0 ++ [0, 0, 1, 0, 1, 0]

/-- The bits-per-pixel field of a DIB blob: the little-endian 16-bit
value at byte offset 14. -/
def bmBitsPerPixel (blob : List Nat) : Nat :=
  blob.getD 14 0 + 256 * blob.getD 15 0

/-- Pixel-data offset as the spec states it: 14-byte file header plus
the 40-byte info header plus `2^bits-per-pixel * 4` palette bytes when
bits-per-pixel is below 16. -/
def bmPixelOffset (bits : Nat) : Nat :=
  if bits ≥ 16 then 14 + 40 else 14 + 40 + 2 ^ bits * 4

/-- The 14-byte BMP file header the extractor prepends: signature "BM",
little-endian total size = blob length + 14 (as a wrapping `u32`), two
zero 16-bit reserved fields, and the pixel-data offset. -/
def bmFileHeader (blob : List Nat) : List Nat :=
  [66, 77] ++ le32Bytes ((blob.length + 14) % 4294967296) ++ [0, 0] ++ [0, 0] ++
    le32Bytes (bmPixelOffset (bmBitsPerPixel blob))

/-- A 40-byte blob: header size 40 and zeroed info-header fields. -/
def c5Blob40 : List Nat :=
  [40, 0, 0, 0] ++ List.replicate 36 0

/-- The little-endian 64-bit value of eight wire bytes, as
`ggv_bin_read_double` assembles it. -/
def leDoubleBits (b0 b1 b2 b3 b4 b5 b6 b7 : Nat) : Nat :=
  b0 + 256 * b1 + 65536 * b2 + 16777216 * b3 + 4294967296 * b4 +
    1099511627776 * b5 + 281474976710656 * b6 + 72057594037927936 * b7

/-- The type-2 entry layout exactly as claim C7 states it: SIX fixed
16-bit fields, then longitude, latitude, then a 16-bit-length label.
(The source reads only five fixed fields.) -/
def v2_entry2_sixfields (buf : List Nat) (geodata : Geodata) :
    Except NomErr (List Nat × Geodata) :=
  do
    let (buf, _) ← ggv_bin_read16 buf ("text color")
    let (buf, _) ← ggv_bin_read16 buf ("text size")
    let (buf, _) ← ggv_bin_read16 buf ("text trans")
    let (buf, _) ← ggv_bin_read16 buf ("text font")
    let (buf, _) ← ggv_bin_read16 buf ("text angle")
    let (buf, _) ← ggv_bin_read16 buf ("text extra")
    let (buf, lon) ← ggv_bin_read_double buf ("text lon")
    let (buf, lat) ← ggv_bin_read_double buf ("text lat")
    let (buf, label) ← ggv_bin_read_text16 buf ("text label")
    .ok (buf, geodata.add_waypoint (((Waypoint.new.with_lat lat).with_lon lon).with_name label))

/-- The payload of the C1 type-2 entry: ten fixed bytes, longitude
13.0, latitude 52.0, label "Berlin". -/
def c7Payload : List Nat :=
  [0, 0, 0, 0, 0, 0, 0, 0, 0, 0] ++
  [0, 0, 0, 0, 0, 0, 42, 64] ++ [0, 0, 0, 0, 0, 0, 74, 64] ++
  [6, 0] ++ [66, 101, 114, 108, 105, 110]

/-- Remove trailing spaces. -/
def trimRight : List Char → List Char
  | [] => []
  | c :: rest =>
    match trimRight rest with
    | [] => if c = SP then [] else [c]
    | d :: r => c :: d :: r

/-- Remove leading and trailing spaces: what the claim calls "trimming leading
and trailing whitespace" for the space-separated text this decoder
produces. -/
def trimSpaces (cs : List Char) : List Char :=
  trimRight (cs.dropWhile (fun c => c = SP))

/-- No two adjacent space characters. -/
def noDoubleSpace : List Char → Bool
  | [] => true
  | [_] => true
  | c :: d :: rest => if c = SP ∧ d = SP then false else noDoubleSpace (d :: rest)

/-- Re-attach a debug level to a parser result pair. -/
def debugSet (d : Nat) (p : List Nat × Geodata) : List Nat × Geodata :=
  (p.1, { p.2 with debug := d })

/-- Normalize the debug level in a read outcome, keeping everything the
claim compares: waypoints, routes, tracks, resources, and errors. -/
def stripDebug : ReadResult → ReadResult
  | .ok g => .ok { g with debug := 0 }
  | r => r

/-- C1: the version-2 input with magic header, map-name length 0 and a
single type-2 entry carrying longitude 13.0, latitude 52.0 and label
"Berlin" decodes successfully to a Geodata whose loose-waypoint list
holds exactly one waypoint with latitude 52.0, longitude 13.0, name
"Berlin" and elevation still the unset (NaN) sentinel, and whose route
and track lists are empty. -/
theorem c1_v2_berlin_scenario :
    GgvBinFormat.read 0 c1Input =
      .ok { debug := 0,
            waypoints := [{ waypoints := [{ latitude := f64Bits52,
                                            longitude := f64Bits13,
                                            elevation := f64NanBits,
                                            name := "Berlin" }],
                            name := "" }],
            routes := [], tracks := [], data := [] } := by
  decide

/-- C10: with a version-2 map-name length field of 1 and nothing after
it, the 4-byte sub-header take fails first and read returns an
insufficient-data error, as the claim requires; but with the 4
sub-header bytes present the source then evaluates the `u16`
subtraction `header_len - 4` with `header_len = 1`, which underflows —
a panic in a debug build (a release build wraps to 65533 and then
fails the oversized take) — so read is not panic-free as the claim
requires. -/
theorem c10_header_len_underflow :
    GgvBinFormat.read 0 (magic23v2 ++ [1, 0]) = .err 2 (.error .eof ("")) ∧
    GgvBinFormat.read 0 (magic23v2 ++ [1, 0, 0, 0, 0, 0]) = .panicked := by
  decide

/-- Binding a successful `Except` computation applies the
continuation. -/
theorem exceptPureBind {ε α β : Type} (a : α) (k : α → Except ε β) :
    (Except.ok a >>= k) = k a :=
  rfl

/-- Binding a failed `Except` computation short-circuits. -/
theorem exceptErrorBind {ε α β : Type} (e : ε) (k : α → Except ε β) :
    (Except.error e >>= k) = Except.error e :=
  rfl

/-- C3: `ggv_bin_read_bytes` consumes exactly its declared width when
enough bytes remain and otherwise fails with the insufficient-data
(`Eof`) condition tagged with the field name — it never touches bytes
past the buffer end; in particular the line entry declaring 5 points
over a 2-point buffer fails with insufficient data on the "text lon"
field. -/
theorem c3_reads_stay_in_bounds :
    (∀ (i : List Nat) (len : Nat) (descr : String),
        (len ≤ i.length → ggv_bin_read_bytes i len descr = .ok (i.drop len, i.take len)) ∧
        (i.length < len → ggv_bin_read_bytes i len descr = .error (.error .eof descr))) ∧
    (∀ g : Geodata,
        ggv_bin_read_v2_entries c3Input 3 ("") g = .error (.error .eof ("text lon"))) := by
  constructor
  · intro i len descr
    constructor
    · intro h
      simp [ggv_bin_read_bytes, nom_take, withContext, h]
    · intro h
      have h2 : ¬ len ≤ i.length := by omega
      simp [ggv_bin_read_bytes, nom_take, withContext, addCtx, h2]
  · intro g
    rfl

/-- Closed instance of the C3 theorem: both bounds cases of
`ggv_bin_read_bytes` and the 5-points-over-2 scenario at concrete
inputs. -/
theorem c3_reads_stay_in_bounds_witness :
    ggv_bin_read_bytes [7, 8, 9] 2 ("fld") = .ok ([9], [7, 8]) ∧
    ggv_bin_read_bytes [7, 8, 9] 4 ("fld") = .error (.error .eof ("fld")) ∧
    ggv_bin_read_v2_entries c3Input 3 ("") Geodata.new = .error (.error .eof ("text lon")) :=
  ⟨by
      have h := (c3_reads_stay_in_bounds.1 [7, 8, 9] 2 ("fld")).1 (by decide)
      simpa using h,
   (c3_reads_stay_in_bounds.1 [7, 8, 9] 4 ("fld")).2 (by decide),
   c3_reads_stay_in_bounds.2 Geodata.new⟩

/-- Reading back a 32-bit little-endian encoding yields the encoded
value. -/
theorem ggv_bin_read32_le32 (n : Nat) (rest : List Nat) (descr : String)
    (h : n < 4294967296) :
    ggv_bin_read32 (le32Bytes n ++ rest) descr = .ok (rest, n) := by
  simp [ggv_bin_read32, le32Bytes]
  omega

/-- C4: a 32-bit text length field or bitmap blob length field whose
value exceeds 65535 (here 65536 and any value above the ceiling) makes
the decode fail with the field-too-large condition, whatever bytes
follow the length field — so no payload byte is ever read. -/
theorem c4_too_large_rejected :
    (∀ (n : Nat) (rest : List Nat) (descr : String), 65535 < n → n < 4294967296 →
        ggv_bin_read_text32 (le32Bytes n ++ rest) descr = .error (.failure .tooLarge (""))) ∧
    (∀ (rest : List Nat) (track_name : String) (g : Geodata),
        ggv_bin_read_v2_entries (c4V2Bmp9Prefix ++ le32Bytes 65536 ++ rest) 9 track_name g =
          .error (.failure .tooLarge (""))) ∧
    (∀ (rest : List Nat) (pos : Nat) (g : Geodata),
        ggv_bin_read_record_v34 (c4V34Bmp9Prefix ++ le32Bytes 65536 ++ rest) pos g =
          .error (.failure .tooLarge (""))) := by
  refine ⟨?_, ?_, ?_⟩
  · intro n rest descr h1 h2
    simp only [ggv_bin_read_text32, ggv_bin_read32_le32 n rest descr h2, exceptPureBind]
    simp [h1]
  · intro rest track_name g
    rfl
  · intro rest pos g
    rfl

/-- Closed instance of the C4 theorem at length value 65536 with an
empty tail. -/
theorem c4_too_large_rejected_witness :
    ggv_bin_read_text32 (le32Bytes 65536 ++ []) ("track name") =
      .error (.failure .tooLarge ("")) ∧
    ggv_bin_read_v2_entries (c4V2Bmp9Prefix ++ le32Bytes 65536 ++ []) 9 ("") Geodata.new =
      .error (.failure .tooLarge ("")) ∧
    ggv_bin_read_record_v34 (c4V34Bmp9Prefix ++ le32Bytes 65536 ++ []) 0 Geodata.new =
      .error (.failure .tooLarge ("")) :=
  ⟨c4_too_large_rejected.1 65536 [] ("track name") (by decide) (by decide),
   c4_too_large_rejected.2.1 [] ("") Geodata.new,
   c4_too_large_rejected.2.2 [] 0 Geodata.new⟩

/-- C6: an entry type outside {2,3,4,5,6,7,9} in the version-2 decoder,
and outside {2,3,4,5,6,7,9,0x17} in the version-3/4 record decoder,
fails with the unsupported-entry-type (`Failure(Tag)`) condition; in
particular `read` on a version-2 stream containing an entry of type
0xFF returns that error and no Geodata. -/
theorem c6_unsupported_entry_type :
    (∀ (buf : List Nat) (entry_type : Nat) (track_name : String) (g : Geodata),
        entry_type ≠ 2 → entry_type ≠ 3 → entry_type ≠ 4 → entry_type ≠ 5 →
        entry_type ≠ 6 → entry_type ≠ 7 → entry_type ≠ 9 →
        ggv_bin_read_v2_entries buf entry_type track_name g = .error (.failure .tag (""))) ∧
    (∀ (buf b1 b2 : List Nat) (pos : Nat) (g : Geodata) (entry_type : Nat) (label : String),
        ggv_bin_read16 buf ("entry type") = .ok (b1, entry_type) →
        ggv_bin_read_common_v34 b1 = .ok (b2, label) →
        entry_type ≠ 2 → entry_type ≠ 3 → entry_type ≠ 4 → entry_type ≠ 5 →
        entry_type ≠ 6 → entry_type ≠ 7 → entry_type ≠ 9 → entry_type ≠ 23 →
        ggv_bin_read_record_v34 buf pos g = .error (.failure .tag (""))) ∧
    GgvBinFormat.read 0 c6Input = .err 2 (.failure .tag ("")) := by
  refine ⟨?_, ?_, by decide⟩
  · intro buf entry_type track_name g h2 h3 h4 h5 h6 h7 h9
    simp [ggv_bin_read_v2_entries, h2, h3, h4, h5, h6, h7, h9]
  · intro buf b1 b2 pos g entry_type label hread hcommon h2 h3 h4 h5 h6 h7 h9 h23
    simp only [ggv_bin_read_record_v34, hread, exceptPureBind]
    simp only [hcommon, exceptPureBind]
    simp [h2, h3, h4, h5, h6, h7, h9, h23]

/-- Closed instance of the C6 theorem: both dispatchers reject type
0xFF at concrete buffers. -/
theorem c6_unsupported_entry_type_witness :
    ggv_bin_read_v2_entries [] 255 ("") Geodata.new = .error (.failure .tag ("")) ∧
    ggv_bin_read_record_v34 c6RecordBuf 0 Geodata.new = .error (.failure .tag ("")) :=
  ⟨c6_unsupported_entry_type.1 [] 255 ("") Geodata.new (by decide) (by decide) (by decide)
      (by decide) (by decide) (by decide) (by decide),
   c6_unsupported_entry_type.2.1 c6RecordBuf (List.replicate 20 0 ++ [0, 0, 1, 0, 1, 0]) [] 0
      Geodata.new 255 ("") (by decide) (by decide) (by decide) (by decide) (by decide) (by decide)
      (by decide) (by decide) (by decide) (by decide)⟩

/-- Destructuring helper: a list of length at least `n + 1` starts with
an element, leaving at least `n`. -/
theorem exists_cons_of_le (l : List Nat) (n : Nat) (h : n + 1 ≤ l.length) :
    ∃ a t, l = a :: t ∧ n ≤ t.length := by
  cases l with
  | nil => simp at h
  | cons a t => exact ⟨a, t, rfl, by simpa using h⟩

/-- C5 counterexample: a 4-byte blob whose header-size field is exactly
40; the extractor fails reading the width field and attaches nothing,
so no resource of length blob + 14 exists. -/
theorem c5_short_blob_counterexample :
    ggv_bin_read32 [40, 0, 0, 0] ("bmp dib size") = .ok ([], 40) ∧
    ggv_bin_write_bitmap [40, 0, 0, 0] Geodata.new = .error (.error .eof ("bmp width")) := by
  decide

/-- C5 (amended): whenever the 4-byte header-size field of the blob equals
40 and the blob covers the whole 40-byte info header, the extractor
attaches the resource `bmFileHeader blob ++ blob`, whose length is the
blob length + 14; when the header-size field is not 40 the blob is
left alone and no resource is emitted. -/
theorem c5_bitmap_header :
    (∀ (blob : List Nat) (g : Geodata), 40 ≤ blob.length → blob.take 4 = [40, 0, 0, 0] →
        ggv_bin_write_bitmap blob g =
          .ok (blob, g.add_data ("bmp") (bmFileHeader blob ++ blob))) ∧
    (∀ blob : List Nat, (bmFileHeader blob ++ blob).length = blob.length + 14) ∧
    (∀ (d0 d1 d2 d3 : Nat) (rest : List Nat) (g : Geodata),
        d0 + 256 * d1 + 65536 * d2 + 16777216 * d3 ≠ 40 →
        ggv_bin_write_bitmap (d0 :: d1 :: d2 :: d3 :: rest) g =
          .ok (d0 :: d1 :: d2 :: d3 :: rest, g)) := by
  refine ⟨?_, ?_, ?_⟩
  · intro blob g hlen hdib
    obtain ⟨b0, blob, rfl, hlen⟩ := exists_cons_of_le blob 39 (by omega)
    obtain ⟨b1, blob, rfl, hlen⟩ := exists_cons_of_le blob 38 (by omega)
    obtain ⟨b2, blob, rfl, hlen⟩ := exists_cons_of_le blob 37 (by omega)
    obtain ⟨b3, blob, rfl, hlen⟩ := exists_cons_of_le blob 36 (by omega)
    simp only [List.take, List.cons.injEq, and_true] at hdib
    obtain ⟨rfl, rfl, rfl, rfl, -⟩ := hdib
    obtain ⟨b4, blob, rfl, hlen⟩ := exists_cons_of_le blob 35 (by omega)
    obtain ⟨b5, blob, rfl, hlen⟩ := exists_cons_of_le blob 34 (by omega)
    obtain ⟨b6, blob, rfl, hlen⟩ := exists_cons_of_le blob 33 (by omega)
    obtain ⟨b7, blob, rfl, hlen⟩ := exists_cons_of_le blob 32 (by omega)
    obtain ⟨b8, blob, rfl, hlen⟩ := exists_cons_of_le blob 31 (by omega)
    obtain ⟨b9, blob, rfl, hlen⟩ := exists_cons_of_le blob 30 (by omega)
    obtain ⟨b10, blob, rfl, hlen⟩ := exists_cons_of_le blob 29 (by omega)
    obtain ⟨b11, blob, rfl, hlen⟩ := exists_cons_of_le blob 28 (by omega)
    obtain ⟨b12, blob, rfl, hlen⟩ := exists_cons_of_le blob 27 (by omega)
    obtain ⟨b13, blob, rfl, hlen⟩ := exists_cons_of_le blob 26 (by omega)
    obtain ⟨b14, blob, rfl, hlen⟩ := exists_cons_of_le blob 25 (by omega)
    obtain ⟨b15, blob, rfl, hlen⟩ := exists_cons_of_le blob 24 (by omega)
    obtain ⟨b16, blob, rfl, hlen⟩ := exists_cons_of_le blob 23 (by omega)
    obtain ⟨b17, blob, rfl, hlen⟩ := exists_cons_of_le blob 22 (by omega)
    obtain ⟨b18, blob, rfl, hlen⟩ := exists_cons_of_le blob 21 (by omega)
    obtain ⟨b19, blob, rfl, hlen⟩ := exists_cons_of_le blob 20 (by omega)
    obtain ⟨b20, blob, rfl, hlen⟩ := exists_cons_of_le blob 19 (by omega)
    obtain ⟨b21, blob, rfl, hlen⟩ := exists_cons_of_le blob 18 (by omega)
    obtain ⟨b22, blob, rfl, hlen⟩ := exists_cons_of_le blob 17 (by omega)
    obtain ⟨b23, blob, rfl, hlen⟩ := exists_cons_of_le blob 16 (by omega)
    obtain ⟨b24, blob, rfl, hlen⟩ := exists_cons_of_le blob 15 (by omega)
    obtain ⟨b25, blob, rfl, hlen⟩ := exists_cons_of_le blob 14 (by omega)
    obtain ⟨b26, blob, rfl, hlen⟩ := exists_cons_of_le blob 13 (by omega)
    obtain ⟨b27, blob, rfl, hlen⟩ := exists_cons_of_le blob 12 (by omega)
    obtain ⟨b28, blob, rfl, hlen⟩ := exists_cons_of_le blob 11 (by omega)
    obtain ⟨b29, blob, rfl, hlen⟩ := exists_cons_of_le blob 10 (by omega)
    obtain ⟨b30, blob, rfl, hlen⟩ := exists_cons_of_le blob 9 (by omega)
    obtain ⟨b31, blob, rfl, hlen⟩ := exists_cons_of_le blob 8 (by omega)
    obtain ⟨b32, blob, rfl, hlen⟩ := exists_cons_of_le blob 7 (by omega)
    obtain ⟨b33, blob, rfl, hlen⟩ := exists_cons_of_le blob 6 (by omega)
    obtain ⟨b34, blob, rfl, hlen⟩ := exists_cons_of_le blob 5 (by omega)
    obtain ⟨b35, blob, rfl, hlen⟩ := exists_cons_of_le blob 4 (by omega)
    obtain ⟨b36, blob, rfl, hlen⟩ := exists_cons_of_le blob 3 (by omega)
    obtain ⟨b37, blob, rfl, hlen⟩ := exists_cons_of_le blob 2 (by omega)
    obtain ⟨b38, blob, rfl, hlen⟩ := exists_cons_of_le blob 1 (by omega)
    obtain ⟨b39, blob, rfl, hlen⟩ := exists_cons_of_le blob 0 (by omega)
    rfl
  · intro blob
    simp [bmFileHeader, le32Bytes]
  · intro d0 d1 d2 d3 rest g h
    simp [ggv_bin_write_bitmap, ggv_bin_read32, exceptPureBind, h]

/-- Closed instance of the C5 theorem: the 40-byte all-zero blob gets
its 14-byte header (size field 54, offset 58 with one-bit palette), and
a blob with header-size field 39 is left alone. -/
theorem c5_bitmap_header_witness :
    ggv_bin_write_bitmap c5Blob40 Geodata.new =
      .ok (c5Blob40, Geodata.new.add_data ("bmp") (bmFileHeader c5Blob40 ++ c5Blob40)) ∧
    (bmFileHeader c5Blob40 ++ c5Blob40).length = c5Blob40.length + 14 ∧
    ggv_bin_write_bitmap [39, 0, 0, 0] Geodata.new = .ok ([39, 0, 0, 0], Geodata.new) :=
  ⟨c5_bitmap_header.1 c5Blob40 Geodata.new (by decide) (by decide),
   c5_bitmap_header.2.1 c5Blob40,
   c5_bitmap_header.2.2 39 0 0 0 [] Geodata.new (by decide)⟩

/-- Destructuring helper: a list of length `n + 1` is a cons. -/
theorem exists_cons_of_length_succ (l : List Nat) (n : Nat) (h : l.length = n + 1) :
    ∃ a t, l = a :: t ∧ t.length = n := by
  cases l with
  | nil => simp at h
  | cons a t => exact ⟨a, t, rfl, by simpa using h⟩

/-- Reading exactly the length of a leading list returns it and leaves
the tail. -/
theorem ggv_bin_read_bytes_exact (l rest : List Nat) (descr : String) :
    ggv_bin_read_bytes (l ++ rest) l.length descr = .ok (rest, l) := by
  simp [ggv_bin_read_bytes, nom_take, withContext, List.take_left, List.drop_left]

/-- Reading back a 16-bit-length-prefixed text yields the normalized
decoding of the payload and leaves the tail. -/
theorem ggv_bin_read_text16_encoded (labelB rest : List Nat) (descr : String)
    (h : labelB.length < 65536) :
    ggv_bin_read_text16 (le16Bytes labelB.length ++ (labelB ++ rest)) descr =
      .ok (rest, String.mk (ggv_bin_normalize (decodeLatin1 (takeTillNul labelB)))) := by
  have hv : labelB.length % 256 + 256 * (labelB.length / 256 % 256) = labelB.length := by
    omega
  simp only [ggv_bin_read_text16, le16Bytes, List.cons_append, List.nil_append,
    ggv_bin_read16, exceptPureBind, hv, ggv_bin_read_bytes_exact]

/-- C7 counterexample: on a well-formed type-2 entry payload the source
decoder succeeds after five fixed fields, while the claimed six-field
layout misparses the same bytes and fails — so a type-2 entry does not
consume six fixed fields. -/
theorem c7_sixfields_counterexample :
    ggv_bin_read_v2_entries c7Payload 2 ("") Geodata.new =
      .ok ([], Geodata.new.add_waypoint
        { latitude := f64Bits52, longitude := f64Bits13,
          elevation := f64NanBits, name := "Berlin" }) ∧
    v2_entry2_sixfields c7Payload Geodata.new = .error (.error .eof ("text label")) := by
  decide

/-- C7 (amended): a version-2 type-2 entry consumes FIVE fixed 16-bit
fields (color/size/transparency/font/angle, ten bytes), then reads
longitude followed by latitude as little-endian doubles (longitude
first on the wire), then a 16-bit-length text label, and appends
exactly one waypoint to the loose-waypoint list, consuming nothing
else. -/
theorem c7_entry2_five_fixed_fields :
    ∀ (fixed : List Nat) (n0 n1 n2 n3 n4 n5 n6 n7 m0 m1 m2 m3 m4 m5 m6 m7 : Nat)
      (labelB rest : List Nat) (track_name : String) (g : Geodata),
      fixed.length = 10 → labelB.length < 65536 →
      ggv_bin_read_v2_entries
          (fixed ++ [n0, n1, n2, n3, n4, n5, n6, n7] ++ [m0, m1, m2, m3, m4, m5, m6, m7] ++
            le16Bytes labelB.length ++ labelB ++ rest) 2 track_name g =
        .ok (rest,
          g.add_waypoint
            { latitude := leDoubleBits m0 m1 m2 m3 m4 m5 m6 m7,
              longitude := leDoubleBits n0 n1 n2 n3 n4 n5 n6 n7,
              elevation := f64NanBits,
              name := String.mk (ggv_bin_normalize (decodeLatin1 (takeTillNul labelB))) }) := by
  intro fixed n0 n1 n2 n3 n4 n5 n6 n7 m0 m1 m2 m3 m4 m5 m6 m7 labelB rest track_name g hf hlab
  obtain ⟨f0, fixed, rfl, hf0⟩ := exists_cons_of_length_succ fixed 9 (by omega)
  obtain ⟨f1, fixed, rfl, hf1⟩ := exists_cons_of_length_succ fixed 8 (by omega)
  obtain ⟨f2, fixed, rfl, hf2⟩ := exists_cons_of_length_succ fixed 7 (by omega)
  obtain ⟨f3, fixed, rfl, hf3⟩ := exists_cons_of_length_succ fixed 6 (by omega)
  obtain ⟨f4, fixed, rfl, hf4⟩ := exists_cons_of_length_succ fixed 5 (by omega)
  obtain ⟨f5, fixed, rfl, hf5⟩ := exists_cons_of_length_succ fixed 4 (by omega)
  obtain ⟨f6, fixed, rfl, hf6⟩ := exists_cons_of_length_succ fixed 3 (by omega)
  obtain ⟨f7, fixed, rfl, hf7⟩ := exists_cons_of_length_succ fixed 2 (by omega)
  obtain ⟨f8, fixed, rfl, hf8⟩ := exists_cons_of_length_succ fixed 1 (by omega)
  obtain ⟨f9, fixed, rfl, hf9⟩ := exists_cons_of_length_succ fixed 0 (by omega)
  obtain rfl := List.length_eq_zero.mp hf9
  simp only [List.cons_append, List.nil_append, List.append_assoc]
  simp only [ggv_bin_read_v2_entries, if_pos, ggv_bin_read16, ggv_bin_read_double,
    exceptPureBind, ggv_bin_read_text16_encoded labelB rest ("text label") hlab]
  rfl

/-- Closed instance of the C7 theorem at the C1 entry bytes. -/
theorem c7_entry2_five_fixed_fields_witness :
    ggv_bin_read_v2_entries
        (List.replicate 10 0 ++ [0, 0, 0, 0, 0, 0, 42, 64] ++ [0, 0, 0, 0, 0, 0, 74, 64] ++
          le16Bytes (List.length [66, 101, 114, 108, 105, 110]) ++
          [66, 101, 114, 108, 105, 110] ++ []) 2 ("") Geodata.new =
      .ok ([], Geodata.new.add_waypoint
        { latitude := leDoubleBits 0 0 0 0 0 0 74 64,
          longitude := leDoubleBits 0 0 0 0 0 0 42 64,
          elevation := f64NanBits,
          name := String.mk (ggv_bin_normalize (decodeLatin1
            (takeTillNul [66, 101, 114, 108, 105, 110]))) }) :=
  c7_entry2_five_fixed_fields (List.replicate 10 0) 0 0 0 0 0 0 42 64 0 0 0 0 0 0 74 64
    [66, 101, 114, 108, 105, 110] [] ("") Geodata.new (by decide) (by decide)

/-- The `probe` acceptance unfolded to the four byte conditions the magic
parser checks: the 22-byte peek, the 18-byte literal prefix, one of the
three digit bytes at offset 18, and the 4-byte `".0:\0"` suffix at
offset 19. -/
theorem probe_characterization (buf : List Nat) :
    GgvBinFormat.probe buf = true ↔
      (22 ≤ buf.length ∧ buf.take 18 = magicPrefixBytes ∧
        ((buf.drop 18).take 1 = [50] ∨ (buf.drop 18).take 1 = [51] ∨
          (buf.drop 18).take 1 = [52]) ∧
        (buf.drop 19).take 4 = magicSuffixBytes) := by
  have h18 : magicPrefixBytes.length = 18 := rfl
  have h1 : ([50] : List Nat).length = 1 := rfl
  have h1b : ([51] : List Nat).length = 1 := rfl
  have h1c : ([52] : List Nat).length = 1 := rfl
  have h4 : magicSuffixBytes.length = 4 := rfl
  unfold GgvBinFormat.probe ggv_bin_parse_magic magicVersionAlt nom_tag nom_take
  by_cases h22 : 22 ≤ buf.length
  · simp only [if_pos h22, withContext, h18, h1, h1b, h1c, h4]
    by_cases hpre : buf.take 18 = magicPrefixBytes
    · simp only [if_pos hpre, exceptPureBind]
      by_cases hd2 : (buf.drop 18).take 1 = [50]
      · simp only [if_pos hd2, exceptPureBind]
        by_cases hsuf : (buf.drop 19).take 4 = magicSuffixBytes
        · simp [hsuf, h22, hpre, hd2, exceptPureBind, exceptErrorBind]
        · simp [hsuf, h22, hpre, hd2, exceptPureBind, exceptErrorBind]
      · simp only [if_neg hd2]
        by_cases hd3 : (buf.drop 18).take 1 = [51]
        · simp only [if_pos hd3, exceptPureBind]
          by_cases hsuf : (buf.drop 19).take 4 = magicSuffixBytes
          · simp [hsuf, h22, hpre, hd2, hd3, exceptPureBind, exceptErrorBind]
          · simp [hsuf, h22, hpre, hd2, hd3, exceptPureBind, exceptErrorBind]
        · simp only [if_neg hd3]
          by_cases hd4 : (buf.drop 18).take 1 = [52]
          · simp only [if_pos hd4, exceptPureBind]
            by_cases hsuf : (buf.drop 19).take 4 = magicSuffixBytes
            · simp [hsuf, h22, hpre, hd2, hd3, hd4, exceptPureBind, exceptErrorBind]
            · simp [hsuf, h22, hpre, hd2, hd3, hd4, exceptPureBind, exceptErrorBind]
          · simp [hd4, hd2, hd3, exceptPureBind, exceptErrorBind]
    · simp [hpre, exceptErrorBind]
  · simp [h22, withContext, addCtx, exceptErrorBind]

/-- C2 counterexample: a 22-byte input whose first 22 bytes are exactly
`"DOMGVCRD Ovlfile V2.0:"` (version digit 2, no trailing NUL).  The
claim says probe must accept it; the magic parser in the code also demands a
23rd NUL byte, so probe rejects it. -/
theorem c2_probe_22_bytes_counterexample :
    (magicPrefixBytes ++ [50, 46, 48, 58]).length = 22 ∧
    (magicPrefixBytes ++ [50, 46, 48, 58]).take 22 = magicPrefixBytes ++ 50 :: [46, 48, 58] ∧
    GgvBinFormat.probe (magicPrefixBytes ++ [50, 46, 48, 58]) = false := by
  decide

/-- C2 (amended): probe accepts exactly the buffers whose first 23
bytes are `"DOMGVCRD Ovlfile V"`, a version digit in {2,3,4}, and
`".0:"` followed by a NUL byte; every other prefix is rejected. -/
theorem c2_probe_magic_window :
    ∀ buf : List Nat,
      GgvBinFormat.probe buf = true ↔
        ∃ d, (d = 50 ∨ d = 51 ∨ d = 52) ∧ buf.take 23 = magicBytesV d := by
  intro buf
  rw [probe_characterization]
  have e23 : buf.take 23 = buf.take 18 ++ (buf.drop 18).take 5 := by
    have h := List.take_add buf 18 5
    norm_num at h
    exact h
  have e5 : (buf.drop 18).take 5 = (buf.drop 18).take 1 ++ (buf.drop 19).take 4 := by
    have h := List.take_add (buf.drop 18) 1 4
    rw [List.drop_drop] at h
    norm_num at h
    exact h
  constructor
  · rintro ⟨h22, hpre, hd, hsuf⟩
    rcases hd with hd | hd | hd
    · exact ⟨50, Or.inl rfl, by rw [e23, e5, hpre, hd, hsuf]; rfl⟩
    · exact ⟨51, Or.inr (Or.inl rfl), by rw [e23, e5, hpre, hd, hsuf]; rfl⟩
    · exact ⟨52, Or.inr (Or.inr rfl), by rw [e23, e5, hpre, hd, hsuf]; rfl⟩
  · rintro ⟨d, hd, htake⟩
    have hlenM : (magicBytesV d).length = 23 := by
      simp [magicBytesV, magicPrefixBytes, magicSuffixBytes]
    have h23 : 23 ≤ buf.length := by
      have h := congrArg List.length htake
      rw [List.length_take, hlenM] at h
      omega
    have hMpre : (magicBytesV d).take 18 = magicPrefixBytes := by
      show (magicPrefixBytes ++ d :: magicSuffixBytes).take 18 = magicPrefixBytes
      rw [show (18 : Nat) = magicPrefixBytes.length from rfl]
      exact List.take_left magicPrefixBytes (d :: magicSuffixBytes)
    have hMd : ((magicBytesV d).drop 18).take 1 = [d] := by
      show ((magicPrefixBytes ++ d :: magicSuffixBytes).drop 18).take 1 = [d]
      have h := List.drop_left magicPrefixBytes (d :: magicSuffixBytes)
      simp only [show (18 : Nat) = magicPrefixBytes.length from rfl, h]
      rfl
    have hMsuf : ((magicBytesV d).drop 19).take 4 = magicSuffixBytes := by
      show ((magicPrefixBytes ++ d :: magicSuffixBytes).drop 19).take 4 = magicSuffixBytes
      have h : (magicPrefixBytes ++ d :: magicSuffixBytes).drop 19 =
          ((magicPrefixBytes ++ d :: magicSuffixBytes).drop 18).drop 1 := by
        rw [List.drop_drop]
      rw [h]
      have h2 := List.drop_left magicPrefixBytes (d :: magicSuffixBytes)
      simp only [show (18 : Nat) = magicPrefixBytes.length from rfl, h2]
      rfl
    have hA : (buf.drop 18).take 1 = [d] := by
      have h : ((buf.take 23).drop 18).take 1 = (buf.drop 18).take 1 := by
        rw [List.drop_take, List.take_take]
        norm_num
      rw [← h, htake, hMd]
    have hB : (buf.drop 19).take 4 = magicSuffixBytes := by
      have h : ((buf.take 23).drop 19).take 4 = (buf.drop 19).take 4 := by
        rw [List.drop_take, List.take_take]
        norm_num
      rw [← h, htake, hMsuf]
    have hpre : buf.take 18 = magicPrefixBytes := by
      have h : (buf.take 23).take 18 = buf.take 18 := by
        rw [List.take_take]
        norm_num
      rw [← h, htake, hMpre]
    rcases hd with rfl | rfl | rfl
    · exact ⟨by omega, hpre, Or.inl hA, hB⟩
    · exact ⟨by omega, hpre, Or.inr (Or.inl hA), hB⟩
    · exact ⟨by omega, hpre, Or.inr (Or.inr hA), hB⟩

/-- Closed instance of the C2 theorem: both directions at concrete
buffers — the 23-byte version-2 magic is accepted, and acceptance of
the magic followed by junk yields the 23-byte window shape. -/
theorem c2_probe_magic_window_witness :
    GgvBinFormat.probe magic23v2 = true ∧
    ∃ d, (d = 50 ∨ d = 51 ∨ d = 52) ∧ (magic23v2 ++ [7, 7]).take 23 = magicBytesV d :=
  ⟨(c2_probe_magic_window magic23v2).mpr ⟨50, Or.inl rfl, by decide⟩,
   (c2_probe_magic_window (magic23v2 ++ [7, 7])).mp (by decide)⟩

/-- A list with no control characters is unchanged by the CR+LF
replacement. -/
theorem replaceCRLF_of_no_ctrl (cs : List Char)
    (h : ∀ c ∈ cs, rustIsControl c = false) : replaceCRLF cs = cs := by
  induction cs with
  | nil => rfl
  | cons c rest ih =>
    cases rest with
    | nil => rfl
    | cons d rest2 =>
      have hc : c ≠ CR := by
        intro hc
        have := h c (by simp)
        rw [hc] at this
        simp [rustIsControl, CR] at this
      have : replaceCRLF (c :: d :: rest2) = c :: replaceCRLF (d :: rest2) := by
        simp only [replaceCRLF]
        rw [if_neg]
        intro hcontra
        exact hc hcontra.1
      rw [this, ih (fun x hx => h x (by simp [hx]))]

/-- The `splitSpace` never returns the empty list of chunks. -/
theorem splitSpace_ne_nil (cs : List Char) : splitSpace cs ≠ [] := by
  cases cs with
  | nil => simp [splitSpace]
  | cons c rest =>
    simp only [splitSpace]
    split
    · simp
    · cases h : splitSpace rest <;> simp

/-- The `noDoubleSpace` passes to the tail. -/
theorem noDoubleSpace_tail (c : Char) (l : List Char)
    (h : noDoubleSpace (c :: l) = true) : noDoubleSpace l = true := by
  cases l with
  | nil => rfl
  | cons d rest =>
    simp only [noDoubleSpace] at h
    split at h
    · exact absurd h (by simp)
    · exact h

/-- The `trimRight` keeps a list headed by a non-space non-empty. -/
theorem trimRight_ne_nil (c : Char) (l : List Char) (hc : c ≠ SP) :
    trimRight (c :: l) ≠ [] := by
  simp only [trimRight]
  cases h : trimRight l with
  | nil => simp [hc]
  | cons d r => simp

/-- The `trimRight` commutes with a cons whose tail keeps something. -/
theorem trimRight_cons (x : Char) (l : List Char) (h : trimRight l ≠ []) :
    trimRight (x :: l) = x :: trimRight l := by
  simp only [trimRight]
  cases htr : trimRight l with
  | nil => exact absurd htr h
  | cons d r => rfl

/-- The head char of a leading chunk moves out of the join. -/
theorem joinSpace_cons_head (c : Char) (g : List Char) (F : List (List Char)) :
    joinSpace ((c :: g) :: F) = c :: joinSpace (g :: F) := by
  cases F with
  | nil => rfl
  | cons f F2 => rfl

/-- The `joinSpace` turns a leading empty chunk into one space. -/
theorem joinSpace_nil_cons (f : List Char) (F : List (List Char)) :
    joinSpace ([] :: f :: F) = SP :: joinSpace (f :: F) := by
  rfl

/-- Members of `trimRight l` are members of `l`. -/
theorem mem_trimRight (l : List Char) (c : Char) (h : c ∈ trimRight l) : c ∈ l := by
  induction l with
  | nil => simpa [trimRight] using h
  | cons x l ih =>
    simp only [trimRight] at h
    cases htr : trimRight l with
    | nil =>
      rw [htr] at h
      by_cases hx : x = SP
      · simp [hx] at h
      · simp [hx] at h
        simp [h]
    | cons d r =>
      rw [htr] at h
      simp only [List.mem_cons] at h
      rcases h with rfl | h
      · simp
      · have : c ∈ trimRight l := by rw [htr]; simpa using h
        simp [ih this]

/-- Members of `trimSpaces cs` are members of `cs`. -/
theorem mem_trimSpaces (cs : List Char) (c : Char) (h : c ∈ trimSpaces cs) : c ∈ cs := by
  have h2 := mem_trimRight _ _ h
  exact (List.dropWhile_sublist _).mem h2

/-- Splitting on spaces, dropping empty chunks and re-joining with
single spaces equals trimming, for inputs with no two adjacent
spaces. -/
theorem join_split_aux :
    ∀ (n : Nat) (cs : List Char), cs.length ≤ n → noDoubleSpace cs = true →
      joinSpace ((splitSpace cs).filter (fun g => !g.isEmpty)) = trimSpaces cs := by
  intro n
  induction n with
  | zero =>
    intro cs hle hnd
    have hnil : cs = [] := by
      cases cs with
      | nil => rfl
      | cons c r => simp at hle
    subst hnil
    rfl
  | succ n ihn =>
    intro cs hle hnd
    rcases cs with _ | ⟨c, rest⟩
    · rfl
    by_cases hc : c = SP
    · subst hc
      have hnd2 := noDoubleSpace_tail _ _ hnd
      have step : splitSpace (SP :: rest) = [] :: splitSpace rest := by
        simp [splitSpace]
      have lhs : (splitSpace (SP :: rest)).filter (fun g => !g.isEmpty) =
          (splitSpace rest).filter (fun g => !g.isEmpty) := by
        rw [step]
        simp
      rw [lhs]
      have rhs : trimSpaces (SP :: rest) = trimSpaces rest := by
        simp [trimSpaces, List.dropWhile_cons]
      rw [rhs]
      refine ihn rest ?_ hnd2
      simp only [List.length_cons] at hle
      omega
    · rcases rest with _ | ⟨d, rest2⟩
      · simp [splitSpace, joinSpace, trimSpaces, trimRight, List.dropWhile_cons, hc]
      · by_cases hd : d = SP
        · subst hd
          rcases rest2 with _ | ⟨e, rest3⟩
          · simp [splitSpace, joinSpace, trimSpaces, trimRight, List.dropWhile_cons, hc]
          · by_cases he : e = SP
            · exfalso
              subst he
              simp [noDoubleSpace, hc] at hnd
            · have hnd3 : noDoubleSpace (e :: rest3) = true := by
                have h2 : noDoubleSpace (SP :: e :: rest3) = true :=
                  noDoubleSpace_tail _ _ hnd
                simpa [noDoubleSpace, he] using h2
              obtain ⟨g, gs, hsplit⟩ : ∃ g gs, splitSpace rest3 = g :: gs := by
                cases h : splitSpace rest3 with
                | nil => exact absurd h (splitSpace_ne_nil rest3)
                | cons g gs => exact ⟨g, gs, rfl⟩
              have hsplitE : splitSpace (e :: rest3) = (e :: g) :: gs := by
                simp [splitSpace, he, hsplit]
              have hsplitCs : splitSpace (SP :: e :: rest3) = [] :: (e :: g) :: gs := by
                simp [splitSpace, he, hsplit]
              have hsplitCs2 : splitSpace (c :: SP :: e :: rest3) = [c] :: (e :: g) :: gs := by
                simp [splitSpace, hc, he, hsplit]
              rw [hsplitCs2]
              have hfil : ([c] :: (e :: g) :: gs).filter (fun g2 => !g2.isEmpty) =
                  [c] :: (e :: g) :: gs.filter (fun g2 => !g2.isEmpty) := by
                simp
              rw [hfil]
              have hjoin : joinSpace ([c] :: (e :: g) :: gs.filter (fun g2 => !g2.isEmpty)) =
                  c :: SP :: joinSpace ((e :: g) :: gs.filter (fun g2 => !g2.isEmpty)) := by
                rw [joinSpace_cons_head c [] ((e :: g) :: gs.filter (fun g2 => !g2.isEmpty)),
                  joinSpace_nil_cons]
              rw [hjoin]
              have hih := ihn (e :: rest3) (by simp only [List.length_cons] at hle ⊢; omega) hnd3
              rw [hsplitE] at hih
              have hfil2 : ((e :: g) :: gs).filter (fun g2 => !g2.isEmpty) =
                  (e :: g) :: gs.filter (fun g2 => !g2.isEmpty) := by
                simp
              rw [hfil2] at hih
              rw [hih]
              have htrE : trimSpaces (e :: rest3) = trimRight (e :: rest3) := by
                simp [trimSpaces, List.dropWhile_cons, he]
              have htrNe : trimRight (e :: rest3) ≠ [] := trimRight_ne_nil e rest3 he
              have htrSP : trimRight (SP :: e :: rest3) = SP :: trimRight (e :: rest3) :=
                trimRight_cons SP (e :: rest3) htrNe
              have htrSPne : trimRight (SP :: e :: rest3) ≠ [] := by
                rw [htrSP]
                simp
              have hrhs : trimSpaces (c :: SP :: e :: rest3) =
                  c :: SP :: trimRight (e :: rest3) := by
                have hdw : (c :: SP :: e :: rest3).dropWhile (fun x => x = SP) =
                    c :: SP :: e :: rest3 := by
                  simp [List.dropWhile_cons, hc]
                rw [trimSpaces, hdw, trimRight_cons c (SP :: e :: rest3) htrSPne, htrSP]
              rw [hrhs, htrE]
        · have hnd2 := noDoubleSpace_tail _ _ hnd
          obtain ⟨g, gs, hsplit⟩ : ∃ g gs, splitSpace rest2 = g :: gs := by
            cases h : splitSpace rest2 with
            | nil => exact absurd h (splitSpace_ne_nil rest2)
            | cons g gs => exact ⟨g, gs, rfl⟩
          have hsplitD : splitSpace (d :: rest2) = (d :: g) :: gs := by
            simp [splitSpace, hd, hsplit]
          have hsplitCs : splitSpace (c :: d :: rest2) = (c :: d :: g) :: gs := by
            simp [splitSpace, hc, hd, hsplit]
          rw [hsplitCs]
          have hfil : ((c :: d :: g) :: gs).filter (fun g2 => !g2.isEmpty) =
              (c :: d :: g) :: gs.filter (fun g2 => !g2.isEmpty) := by
            simp
          rw [hfil]
          rw [joinSpace_cons_head c (d :: g) (gs.filter (fun g2 => !g2.isEmpty))]
          have hih := ihn (d :: rest2) (by simp only [List.length_cons] at hle ⊢; omega) hnd2
          rw [hsplitD] at hih
          have hfil2 : ((d :: g) :: gs).filter (fun g2 => !g2.isEmpty) =
              (d :: g) :: gs.filter (fun g2 => !g2.isEmpty) := by
            simp
          rw [hfil2] at hih
          rw [hih]
          have htrD : trimSpaces (d :: rest2) = trimRight (d :: rest2) := by
            simp [trimSpaces, List.dropWhile_cons, hd]
          have htrNe : trimRight (d :: rest2) ≠ [] := trimRight_ne_nil d rest2 hd
          have hrhs : trimSpaces (c :: d :: rest2) = c :: trimRight (d :: rest2) := by
            have hdw : (c :: d :: rest2).dropWhile (fun x => x = SP) = c :: d :: rest2 := by
              simp [List.dropWhile_cons, hc]
            rw [trimSpaces, hdw, trimRight_cons c (d :: rest2) htrNe]
          rw [hrhs, htrD]

/-- C8 counterexample: the string "a  b" (two adjacent spaces) contains
no CR/LF sequence and no control character, yet the normalization
collapses the run, so the decoded text differs from the input even
after trimming. -/
theorem c8_double_space_counterexample :
    (∀ c ∈ [Char.ofNat 97, SP, SP, Char.ofNat 98], rustIsControl c = false) ∧
    ggv_bin_normalize [Char.ofNat 97, SP, SP, Char.ofNat 98] ≠
      trimSpaces [Char.ofNat 97, SP, SP, Char.ofNat 98] := by
  decide

/-- C8 (amended): for every input with no control characters (which
rules out CR and LF) and no two adjacent spaces, the Text Decoder
normalization returns the input unchanged after trimming leading and
trailing spaces. -/
theorem c8_normalize_idempotent (cs : List Char)
    (hctrl : ∀ c ∈ cs, rustIsControl c = false)
    (hnd : noDoubleSpace cs = true) :
    ggv_bin_normalize cs = trimSpaces cs := by
  unfold ggv_bin_normalize
  rw [replaceCRLF_of_no_ctrl cs hctrl]
  rw [join_split_aux cs.length cs le_rfl hnd]
  rw [List.filter_eq_self.mpr]
  intro a ha
  have hmem := mem_trimSpaces cs a ha
  simp [hctrl a hmem]

/-- Closed instance of the C8 theorem on " a b " (leading and trailing
space, single interior separators). -/
theorem c8_normalize_idempotent_witness :
    ggv_bin_normalize [SP, Char.ofNat 97, SP, Char.ofNat 98, SP] =
      trimSpaces [SP, Char.ofNat 97, SP, Char.ofNat 98, SP] :=
  c8_normalize_idempotent [SP, Char.ofNat 97, SP, Char.ofNat 98, SP] (by decide) (by decide)

/-- Bind commutes with re-attaching the debug level when the bound
computation does not involve the Geodata. -/
theorem bindDebugComm {α : Type} (d : Nat) (p : Except NomErr α)
    (k km : α → Except NomErr (List Nat × Geodata))
    (h : ∀ x, km x = Except.map (debugSet d) (k x)) :
    (p >>= km) = Except.map (debugSet d) (p >>= k) := by
  cases p with
  | error e => rfl
  | ok a => exact h a

/-- Bind commutes with re-attaching the debug level when the bound
computation already carries it. -/
theorem bindDebugComm2 (d : Nat) (p : Except NomErr (List Nat × Geodata))
    (k km : List Nat × Geodata → Except NomErr (List Nat × Geodata))
    (h : ∀ buf g, km (buf, { g with debug := d }) = Except.map (debugSet d) (k (buf, g))) :
    ((Except.map (debugSet d) p) >>= km) = Except.map (debugSet d) (p >>= k) := by
  cases p with
  | error e => rfl
  | ok a =>
    obtain ⟨buf, g⟩ := a
    exact h buf g

/-- The `add_waypoint` ignores and preserves the debug level. -/
theorem add_waypoint_debug (g : Geodata) (d : Nat) (w : Waypoint) :
    Geodata.add_waypoint { g with debug := d } w = { g.add_waypoint w with debug := d } := by
  cases hl : g.waypoints with
  | nil => simp [Geodata.add_waypoint, hl]
  | cons a t => simp [Geodata.add_waypoint, hl]

/-- The `add_track` ignores and preserves the debug level. -/
theorem add_track_debug (g : Geodata) (d : Nat) (t : WaypointList) :
    Geodata.add_track { g with debug := d } t = { g.add_track t with debug := d } := by
  rfl

/-- The `add_data` ignores and preserves the debug level. -/
theorem add_data_debug (g : Geodata) (d : Nat) (name : String) (bytes : List Nat) :
    Geodata.add_data { g with debug := d } name bytes =
      { g.add_data name bytes with debug := d } := by
  rfl

/-- The bitmap extractor ignores the debug level. -/
theorem write_bitmap_debug (bitmap : List Nat) (g : Geodata) (d : Nat) :
    ggv_bin_write_bitmap bitmap { g with debug := d } =
      Except.map (debugSet d) (ggv_bin_write_bitmap bitmap g) := by
  unfold ggv_bin_write_bitmap
  refine bindDebugComm d _ _ _ ?_
  rintro ⟨i, dib⟩
  by_cases h40 : dib ≠ 40
  · simp [h40, Except.map, debugSet]
  · simp only [if_neg h40]
    refine bindDebugComm d _ _ _ ?_
    rintro ⟨i, x⟩
    refine bindDebugComm d _ _ _ ?_
    rintro ⟨i, x⟩
    refine bindDebugComm d _ _ _ ?_
    rintro ⟨i, x⟩
    refine bindDebugComm d _ _ _ ?_
    rintro ⟨i, bits⟩
    refine bindDebugComm d _ _ _ ?_
    rintro ⟨i, x⟩
    refine bindDebugComm d _ _ _ ?_
    rintro ⟨i, x⟩
    refine bindDebugComm d _ _ _ ?_
    rintro ⟨i, x⟩
    refine bindDebugComm d _ _ _ ?_
    rintro ⟨i, x⟩
    refine bindDebugComm d _ _ _ ?_
    rintro ⟨i, x⟩
    refine bindDebugComm d _ _ _ ?_
    rintro ⟨i, x⟩
    simp [Except.map, debugSet, add_data_debug]

/-- The version-2 entry dispatcher ignores the debug level. -/
theorem v2_entries_debug (buf : List Nat) (et : Nat) (tn : String) (g : Geodata) (d : Nat) :
    ggv_bin_read_v2_entries buf et tn { g with debug := d } =
      Except.map (debugSet d) (ggv_bin_read_v2_entries buf et tn g) := by
  unfold ggv_bin_read_v2_entries
  by_cases h2 : et = 2
  · simp only [if_pos h2]
    repeat
      (refine bindDebugComm d _ _ _ ?_
       rintro ⟨i, x⟩)
    simp [Except.map, debugSet, add_waypoint_debug]
  · simp only [if_neg h2]
    by_cases h34 : et = 3 ∨ et = 4
    · simp only [if_pos h34]
      repeat
        (refine bindDebugComm d _ _ _ ?_
         rintro ⟨i, x⟩)
      simp [Except.map, debugSet, add_track_debug]
    · simp only [if_neg h34]
      by_cases h567 : et = 5 ∨ et = 6 ∨ et = 7
      · simp only [if_pos h567]
        repeat
          (refine bindDebugComm d _ _ _ ?_
           rintro ⟨i, x⟩)
        simp [Except.map, debugSet]
      · simp only [if_neg h567]
        by_cases h9 : et = 9
        · simp only [if_pos h9]
          repeat
            (refine bindDebugComm d _ _ _ ?_
             rintro ⟨i, x⟩)
          by_cases hbl : x > 65535
          · simp [hbl, Except.map, debugSet]
          · simp only [if_neg hbl]
            refine bindDebugComm d _ _ _ ?_
            rintro ⟨i, bmp_data⟩
            rw [write_bitmap_debug bmp_data g d]
            cases hwb : ggv_bin_write_bitmap bmp_data g with
            | ok p =>
              obtain ⟨r, g2⟩ := p
              simp [Except.map, debugSet]
            | error e =>
              simp [Except.map, debugSet]
        · simp only [if_neg h9]
          rfl

/-- The version-2 entry loop ignores the debug level. -/
theorem v2_loop_debug (fuel : Nat) :
    ∀ (buf : List Nat) (g : Geodata) (d : Nat),
      ggv_bin_read_v2_loop fuel buf { g with debug := d } =
        Except.map (debugSet d) (ggv_bin_read_v2_loop fuel buf g) := by
  induction fuel with
  | zero =>
    intro buf g d
    simp [ggv_bin_read_v2_loop, Except.map, debugSet]
  | succ fuel ih =>
    intro buf g d
    by_cases hempty : buf.length = 0
    · simp [ggv_bin_read_v2_loop, hempty, Except.map, debugSet]
    · simp only [ggv_bin_read_v2_loop, if_neg hempty]
      repeat
        (refine bindDebugComm d _ _ _ ?_
         rintro ⟨i, x⟩)
      dsimp only []
      by_cases hsub : x ≠ 1
      · simp only [if_pos hsub]
        refine bindDebugComm d _ _ _ ?_
        rintro ⟨i2, tn⟩
        rw [v2_entries_debug]
        refine bindDebugComm2 d _ _ _ ?_
        intro buf2 g2
        exact ih buf2 g2 d
      · simp only [if_neg hsub]
        refine bindDebugComm d _ _ _ ?_
        rintro ⟨i2, tn⟩
        rw [v2_entries_debug]
        refine bindDebugComm2 d _ _ _ ?_
        intro buf2 g2
        exact ih buf2 g2 d

/-- The `ggv_bin_read_v2` ignores the debug level. -/
theorem read_v2_debug (buf : List Nat) (g : Geodata) (d : Nat) :
    ggv_bin_read_v2 buf { g with debug := d } =
      Except.map (debugSet d) (ggv_bin_read_v2 buf g) := by
  unfold ggv_bin_read_v2
  refine bindDebugComm d _ _ _ ?_
  rintro ⟨i, x⟩
  refine bindDebugComm d _ _ _ ?_
  rintro ⟨i2, y⟩
  exact v2_loop_debug _ i2 g d

/-- The version-3/4 record decoder ignores the debug level. -/
theorem record_v34_debug (buf : List Nat) (pos : Nat) (g : Geodata) (d : Nat) :
    ggv_bin_read_record_v34 buf pos { g with debug := d } =
      Except.map (debugSet d) (ggv_bin_read_record_v34 buf pos g) := by
  unfold ggv_bin_read_record_v34
  refine bindDebugComm d _ _ _ ?_
  rintro ⟨b1, et⟩
  refine bindDebugComm d _ _ _ ?_
  rintro ⟨b2, label⟩
  by_cases h2 : et = 2
  · simp only [if_pos h2]
    repeat
      (refine bindDebugComm d _ _ _ ?_
       rintro ⟨i, x⟩)
    simp [Except.map, debugSet, add_waypoint_debug]
  · simp only [if_neg h2]
    by_cases h34 : et = 3 ∨ et = 4 ∨ et = 23
    · simp only [if_pos h34]
      repeat
        (refine bindDebugComm d _ _ _ ?_
         rintro ⟨i, x⟩)
      by_cases hpad : et = 4
      · simp only [if_pos hpad]
        refine bindDebugComm d _ _ _ ?_
        rintro ⟨i2, y⟩
        refine bindDebugComm d _ _ _ ?_
        rintro ⟨i3, tr⟩
        simp [Except.map, debugSet, add_track_debug]
      · simp only [if_neg hpad]
        refine bindDebugComm d _ _ _ ?_
        rintro ⟨i2, y⟩
        refine bindDebugComm d _ _ _ ?_
        rintro ⟨i3, tr⟩
        simp [Except.map, debugSet, add_track_debug]
    · simp only [if_neg h34]
      by_cases h567 : et = 5 ∨ et = 6 ∨ et = 7
      · simp only [if_pos h567]
        repeat
          (refine bindDebugComm d _ _ _ ?_
           rintro ⟨i, x⟩)
        simp [Except.map, debugSet]
      · simp only [if_neg h567]
        by_cases h9 : et = 9
        · simp only [if_pos h9]
          repeat
            (refine bindDebugComm d _ _ _ ?_
             rintro ⟨i, x⟩)
          by_cases hbl : x > 65535
          · simp [hbl, Except.map, debugSet]
          · simp only [if_neg hbl]
            refine bindDebugComm d _ _ _ ?_
            rintro ⟨i, y⟩
            refine bindDebugComm d _ _ _ ?_
            rintro ⟨i, bmp_data⟩
            rw [write_bitmap_debug bmp_data g d]
            cases hwb : ggv_bin_write_bitmap bmp_data g with
            | ok p =>
              obtain ⟨r, g2⟩ := p
              simp [Except.map, debugSet]
            | error e =>
              simp [Except.map, debugSet]
        · simp only [if_neg h9]
          rfl

/-- The version-3/4 record loop ignores the debug level. -/
theorem v34_record_loop_debug (n : Nat) :
    ∀ (length : Nat) (buf : List Nat) (g : Geodata) (d : Nat),
      ggv_bin_v34_record_loop n length buf { g with debug := d } =
        Except.map (debugSet d) (ggv_bin_v34_record_loop n length buf g) := by
  induction n with
  | zero =>
    intro length buf g d
    simp [ggv_bin_v34_record_loop, Except.map, debugSet]
  | succ n ih =>
    intro length buf g d
    simp only [ggv_bin_v34_record_loop]
    rw [record_v34_debug]
    refine bindDebugComm2 d _ _ _ ?_
    intro buf2 g2
    exact ih length buf2 g2 d

/-- The version-3/4 block loop ignores the debug level. -/
theorem v34_loop_debug (fuel : Nat) :
    ∀ (length : Nat) (buf : List Nat) (g : Geodata) (d : Nat),
      ggv_bin_read_v34_loop fuel length buf { g with debug := d } =
        Except.map (debugSet d) (ggv_bin_read_v34_loop fuel length buf g) := by
  induction fuel with
  | zero =>
    intro length buf g d
    simp [ggv_bin_read_v34_loop, Except.map, debugSet]
  | succ fuel ih =>
    intro length buf g d
    by_cases hempty : buf.length = 0
    · simp [ggv_bin_read_v34_loop, hempty, Except.map, debugSet]
    · simp only [ggv_bin_read_v34_loop, if_neg hempty]
      refine bindDebugComm d _ _ _ ?_
      rintro ⟨i, counts⟩
      refine bindDebugComm d _ _ _ ?_
      rintro ⟨i2, u⟩
      rw [v34_record_loop_debug]
      refine bindDebugComm2 d _ _ _ ?_
      intro buf2 g2
      by_cases hb : buf2.length > 0
      · simp only [if_pos hb]
        refine bindDebugComm d _ _ _ ?_
        rintro ⟨i3, m⟩
        exact ih length i3 g2 d
      · simp only [if_neg hb]
        exact ih length buf2 g2 d

/-- The `ggv_bin_read_v34` ignores the debug level. -/
theorem read_v34_debug (buf : List Nat) (g : Geodata) (d : Nat) :
    ggv_bin_read_v34 buf { g with debug := d } =
      Except.map (debugSet d) (ggv_bin_read_v34 buf g) := by
  unfold ggv_bin_read_v34
  refine bindDebugComm d _ _ _ ?_
  rintro ⟨i, x⟩
  exact v34_loop_debug _ _ i g d

/-- C9: the verbosity level never affects the decode outcome — for any
buffer and any two debug levels, the two runs of read both fail with
the same error, or both succeed with identical loose waypoints, routes,
tracks and binary resources (only the stored debug level itself can
differ, which `stripDebug` normalizes away). -/
theorem c9_debug_level_independent :
    ∀ (buf : List Nat) (d1 d2 : Nat),
      stripDebug (GgvBinFormat.read d1 buf) = stripDebug (GgvBinFormat.read d2 buf) := by
  have key : ∀ (buf : List Nat) (d : Nat),
      stripDebug (GgvBinFormat.read d buf) = stripDebug (GgvBinFormat.read 0 buf) := by
    intro buf d
    dsimp only [GgvBinFormat.read]
    generalize (match ggv_bin_parse_magic buf with
      | .ok (_, v) => v.1
      | _ => 0) = ver
    rw [show Geodata.new.with_debug d = { Geodata.new with debug := d } from rfl,
      show Geodata.new.with_debug 0 = { Geodata.new with debug := 0 } from rfl]
    by_cases hv2 : ver = 2
    · simp only [if_pos hv2]
      rw [read_v2_debug buf Geodata.new d, read_v2_debug buf Geodata.new 0]
      cases hr : ggv_bin_read_v2 buf Geodata.new with
      | ok p =>
        obtain ⟨r, g0⟩ := p
        simp [Except.map, debugSet, stripDebug]
      | error e =>
        cases e <;> simp [Except.map, stripDebug]
    · simp only [if_neg hv2]
      by_cases hv34 : ver = 3 ∨ ver = 4
      · simp only [if_pos hv34]
        rw [read_v34_debug buf Geodata.new d, read_v34_debug buf Geodata.new 0]
        cases hr : ggv_bin_read_v34 buf Geodata.new with
        | ok p =>
          obtain ⟨r, g0⟩ := p
          simp [Except.map, debugSet, stripDebug]
        | error e =>
          cases e <;> simp [Except.map, stripDebug]
      · simp only [if_neg hv34]
  intro buf d1 d2
  rw [key buf d1, key buf d2]

